import Mathlib

/-!
Shallow embedding of the Telegram premium-broadcast bot (main.py, with the
resend-code cooldown variant from test.py), together with proofs about the
key/subscription lifecycle, broadcast scheduling and JSON persistence.

Python dictionaries are modelled as association lists (`alookup`, `aset`,
`aremove`) preserving insertion order, exactly like CPython dicts.
`datetime` instants are modelled as natural numbers where only ordering
matters (`is_premium`, cooldowns), and as a structured `PyDateTime` where
ISO-8601 serialization matters (`save_data` / `load_data`).
-/

namespace Bot

/-- First-match lookup in an association list: `d[k]` with `k in d` test. -/
def alookup {α β : Type} [DecidableEq α] : List (α × β) → α → Option β
  | [], _ => none
  | (k, v) :: rest, a => if k = a then some v else alookup rest a

/-- Python dict assignment `d[k] = v`: replace in place if the key exists,
otherwise append (CPython preserves insertion order). -/
def aset {α β : Type} [DecidableEq α] : List (α × β) → α → β → List (α × β)
  | [], a, b => [(a, b)]
  | (k, v) :: rest, a, b =>
      if k = a then (k, b) :: rest else (k, v) :: aset rest a b

/-- Python dict deletion `del d[k]`. -/
def aremove {α β : Type} [DecidableEq α] (l : List (α × β)) (a : α) :
    List (α × β) :=
  l.filter (fun p => decide (p.1 ≠ a))

theorem alookup_aset_self {α β : Type} [DecidableEq α]
    (l : List (α × β)) (a : α) (b : β) : alookup (aset l a b) a = some b := by
  induction l with
  | nil => simp [aset, alookup]
  | cons p rest ih =>
      by_cases h : p.1 = a
      · simp [aset, alookup, h]
      · simp [aset, alookup, h, ih]

theorem alookup_aset_ne {α β : Type} [DecidableEq α]
    (l : List (α × β)) (a a' : α) (b : β) (h : a ≠ a') :
    alookup (aset l a b) a' = alookup l a' := by
  induction l with
  | nil => simp [aset, alookup, h]
  | cons p rest ih =>
      by_cases hp : p.1 = a
      · simp [aset, alookup, hp, h]
      · simp only [aset, if_neg hp]
        by_cases hp' : p.1 = a'
        · simp [alookup, hp']
        · simp [alookup, hp', ih]

/-! ### Characters: Python `str.strip()`, `str.upper()`, the key regex -/

/-- The characters stripped by Python `str.strip()` (ASCII whitespace:
space, tab, LF, VT, FF, CR), identified by code point. -/
def isPyWhitespace (c : Char) : Bool :=
  c.toNat = 32 || c.toNat = 9 || c.toNat = 10 ||
  c.toNat = 11 || c.toNat = 12 || c.toNat = 13

/-- Python `str.upper()` on one ASCII character: `a`..`z` map down by 32. -/
def upperChar (c : Char) : Char :=
  if 97 ≤ c.toNat && c.toNat ≤ 122 then Char.ofNat (c.toNat - 32) else c

/-- Python `text.strip()`: drop leading and trailing whitespace. -/
def pyStrip (t : List Char) : List Char :=
  ((t.dropWhile isPyWhitespace).reverse.dropWhile isPyWhitespace).reverse

/-- Python `text.upper()`. -/
def pyUpper (t : List Char) : List Char := t.map upperChar

/-- `update.message.text.strip().upper()` — the normalization applied by
`process_key_activation` before any validation. -/
def normalizeKeyInput (t : List Char) : List Char := pyUpper (pyStrip t)

/-- The character class `[A-Z0-9]` of the key regex. -/
def isKeyChar (c : Char) : Bool :=
  (65 ≤ c.toNat && c.toNat ≤ 90) || (48 ≤ c.toNat && c.toNat ≤ 57)

/-- The fixed key head `PREMIUM-` (8 characters). -/
def keyHead : List Char := ['P', 'R', 'E', 'M', 'I', 'U', 'M', '-']

/-- `re.match(r"^PREMIUM-[A-Z0-9]{8,12}$", text)`: the fixed head followed
by 8 to 12 uppercase alphanumeric characters. -/
def keyFormatOK (t : List Char) : Bool :=
  decide (t.take 8 = keyHead) &&
  decide (8 ≤ (t.drop 8).length) && decide ((t.drop 8).length ≤ 12) &&
  (t.drop 8).all isKeyChar

/-- `string.ascii_uppercase + string.digits`, the alphabet sampled by
`generate_key`. -/
def keyAlphabet : List Char :=
  ['A', 'B', 'C', 'D', 'E', 'F', 'G', 'H', 'I', 'J', 'K', 'L', 'M',
   'N', 'O', 'P', 'Q', 'R', 'S', 'T', 'U', 'V', 'W', 'X', 'Y', 'Z',
   '0', '1', '2', '3', '4', '5', '6', '7', '8', '9']

/-- One `random.choice(chars)` draw, with the RNG modelled as an arbitrary
natural number reduced into the alphabet. -/
def pickChar (i : Nat) : Char := keyAlphabet.getD (i % 36) 'A'

/-- `generate_key`: `"PREMIUM-" + "".join(random.choice(chars) for _ in
range(length))`; the random draws are the `picks` argument (default
`length=12`, so twelve draws). -/
def generate_key (picks : List Nat) : List Char :=
  keyHead ++ picks.map pickChar

/-! ### Key store, premium store, `process_key_activation` -/

/-- A `generated_keys` record:
`{"user_id": None | int, "expiry": datetime, "admin_id": int, "days": int}`.
`user_id` is the redeemed-by marker, `none` while unredeemed. -/
structure KeyData where
  user_id : Option Int
  expiry : Nat
  admin_id : Int
  days : Int
deriving DecidableEq

/-- A `premium_users` record:
`{"expiry": datetime, "key": str, "admin_id": int, "days": int}`. -/
structure Grant where
  expiry : Nat
  key : List Char
  admin_id : Int
  days : Int
deriving DecidableEq

/-- The four user-visible outcomes of `process_key_activation`. -/
inductive ActivationResult where
  | badFormat
  | unknownKey
  | alreadyRedeemed
  | activated (days : Int) (expiry : Nat)
deriving DecidableEq

/-- The two stores touched by key activation. -/
structure BotState where
  generated_keys : List (List Char × KeyData)
  premium_users : List (Int × Grant)
deriving DecidableEq

/-- Body of `process_key_activation` after input normalization: the format
check, the existence check, the redeemed check (in this order), and on
success the write of the user's grant followed by the redeemed-by mark. -/
def activation_outcome (uid : Int) (text : List Char) (st : BotState) :
    ActivationResult × BotState :=
  if !keyFormatOK text then (.badFormat, st)
  else
    match alookup st.generated_keys text with
    | none => (.unknownKey, st)
    | some kd =>
        match kd.user_id with
        | some _ => (.alreadyRedeemed, st)
        | none =>
            let premium' :=
              aset st.premium_users uid ⟨kd.expiry, text, kd.admin_id, kd.days⟩
            let keys' :=
              aset st.generated_keys text { kd with user_id := some uid }
            (.activated kd.days kd.expiry, ⟨keys', premium'⟩)

/-- `process_key_activation(update, context)`: normalizes the submitted
text with `.strip().upper()` and then runs the three checks / the writes. -/
def process_key_activation (uid : Int) (raw : List Char) (st : BotState) :
    ActivationResult × BotState :=
  activation_outcome uid (normalizeKeyInput raw) st

/-- `is_premium(user_id)`: a grant exists and `expiry > datetime.now()`.
`now` is the wall-clock instant of the call, passed explicitly. -/
def is_premium (premium : List (Int × Grant)) (uid : Int) (now : Nat) :
    Bool :=
  match alookup premium uid with
  | some g => decide (now < g.expiry)
  | none => false

/-! ### Normalization lemmas -/

theorem isPyWhitespace_le (c : Char) (h : isPyWhitespace c = true) :
    c.toNat ≤ 32 := by
  simp only [isPyWhitespace, Bool.or_eq_true, decide_eq_true_eq] at h
  omega

theorem upperChar_eq_self_of_not_lower (c : Char)
    (h : ¬ (97 ≤ c.toNat ∧ c.toNat ≤ 122)) : upperChar c = c := by
  unfold upperChar
  rw [if_neg]
  simp only [Bool.and_eq_true, decide_eq_true_eq]
  exact h

theorem upperChar_keyChar (c : Char) (h : isKeyChar c = true) :
    upperChar c = c := by
  simp only [isKeyChar, Bool.or_eq_true, Bool.and_eq_true,
    decide_eq_true_eq] at h
  apply upperChar_eq_self_of_not_lower
  omega

theorem keyChar_not_ws (c : Char) (h : isKeyChar c = true) :
    isPyWhitespace c = false := by
  simp only [isKeyChar, Bool.or_eq_true, Bool.and_eq_true,
    decide_eq_true_eq] at h
  simp only [isPyWhitespace, Bool.or_eq_false_iff, decide_eq_false_iff_not]
  omega

theorem dropWhile_eq_self_of_forall {p : Char → Bool} {l : List Char}
    (h : ∀ c ∈ l, p c = false) : l.dropWhile p = l := by
  cases l with
  | nil => rfl
  | cons a t => simp [List.dropWhile_cons, h a (by simp)]

theorem dropWhile_ws_append {w t : List Char}
    (h : ∀ c ∈ w, isPyWhitespace c = true) :
    (w ++ t).dropWhile isPyWhitespace = t.dropWhile isPyWhitespace := by
  induction w with
  | nil => rfl
  | cons a w ih =>
      simp only [List.cons_append, List.dropWhile_cons, h a (by simp)]
      exact ih fun c hc => h c (by simp [hc])

theorem pyStrip_eq_self_of_forall {l : List Char}
    (h : ∀ c ∈ l, isPyWhitespace c = false) : pyStrip l = l := by
  unfold pyStrip
  rw [dropWhile_eq_self_of_forall h,
      dropWhile_eq_self_of_forall (fun c hc => h c (List.mem_reverse.mp hc)),
      List.reverse_reverse]

theorem pyStrip_wrap {w1 w2 core : List Char}
    (hw1 : ∀ c ∈ w1, isPyWhitespace c = true)
    (hw2 : ∀ c ∈ w2, isPyWhitespace c = true)
    (hc : ∀ c ∈ core, isPyWhitespace c = false)
    (hne : core ≠ []) : pyStrip (w1 ++ core ++ w2) = core := by
  unfold pyStrip
  rw [List.append_assoc, dropWhile_ws_append hw1]
  obtain ⟨a, t, rfl⟩ := List.exists_cons_of_ne_nil hne
  rw [List.cons_append,
    List.dropWhile_cons_of_neg (by simp [hc a (List.mem_cons_self a t)])]
  simp only [List.reverse_cons, List.reverse_append, List.append_assoc]
  rw [dropWhile_ws_append (fun c hc2 => hw2 c (List.mem_reverse.mp hc2)),
    dropWhile_eq_self_of_forall (by
      intro c hcm
      rcases List.mem_append.mp hcm with h1 | h1
      · exact hc c (List.mem_cons_of_mem a (List.mem_reverse.mp h1))
      · simp only [List.mem_singleton] at h1
        exact h1 ▸ hc a (List.mem_cons_self a t))]
  simp

theorem keyHead_facts :
    (∀ c ∈ keyHead, isPyWhitespace c = false) ∧
    (∀ c ∈ keyHead, upperChar c = c) := by
  constructor <;> · intro c hc; fin_cases hc <;> rfl

/-- Every character of a string accepted by the key regex is non-whitespace
and fixed by `upper()`. -/
theorem keyFormat_chars {k : List Char} (h : keyFormatOK k = true) :
    (∀ c ∈ k, isPyWhitespace c = false) ∧ (∀ c ∈ k, upperChar c = c) := by
  simp only [keyFormatOK, Bool.and_eq_true, decide_eq_true_eq,
    List.all_eq_true] at h
  obtain ⟨⟨⟨htake, _⟩, _⟩, hall⟩ := h
  have hsplit : ∀ c ∈ k, c ∈ keyHead ∨ isKeyChar c = true := by
    intro c hc
    rw [← List.take_append_drop 8 k] at hc
    rcases List.mem_append.mp hc with h1 | h1
    · exact Or.inl (htake ▸ h1)
    · exact Or.inr (hall c h1)
  constructor <;> intro c hc <;> rcases hsplit c hc with h1 | h1
  · exact keyHead_facts.1 c h1
  · exact keyChar_not_ws c h1
  · exact keyHead_facts.2 c h1
  · exact upperChar_keyChar c h1

/-- A well-formed key is a fixed point of the input normalization. -/
theorem normalize_fixed_of_format {k : List Char}
    (h : keyFormatOK k = true) : normalizeKeyInput k = k := by
  unfold normalizeKeyInput pyUpper
  rw [pyStrip_eq_self_of_forall (keyFormat_chars h).1]
  exact List.map_congr_left (keyFormat_chars h).2 |>.trans (List.map_id k)

theorem generate_key_format {picks : List Nat} (h : picks.length = 12) :
    keyFormatOK (generate_key picks) = true := by
  have hpick : ∀ j, j < 36 → isKeyChar (keyAlphabet.getD j 'A') = true := by
    decide
  simp only [keyFormatOK, generate_key, Bool.and_eq_true, decide_eq_true_eq,
    List.all_eq_true]
  have hlen : keyHead.length = 8 := rfl
  refine ⟨⟨⟨List.take_left' hlen, ?_⟩, ?_⟩, ?_⟩
  · rw [List.drop_left' hlen]; simp [h]
  · rw [List.drop_left' hlen]; simp [h]
  · rw [List.drop_left' hlen]
    intro c hc
    obtain ⟨i, _, rfl⟩ := List.mem_map.mp hc
    exact hpick (i % 36) (Nat.mod_lt i (by omega))

/-! ### Branch equations for `process_key_activation` -/

theorem activation_badFormat_eq (u : Int) (s : List Char) (st : BotState)
    (hf : keyFormatOK (normalizeKeyInput s) = false) :
    process_key_activation u s st = (.badFormat, st) := by
  simp [process_key_activation, activation_outcome, hf]

theorem activation_unknown_eq (u : Int) (s : List Char) (st : BotState)
    (hf : keyFormatOK (normalizeKeyInput s) = true)
    (hl : alookup st.generated_keys (normalizeKeyInput s) = none) :
    process_key_activation u s st = (.unknownKey, st) := by
  simp [process_key_activation, activation_outcome, hf, hl]

theorem activation_redeemed_eq (u : Int) (s : List Char) (st : BotState)
    (kd : KeyData) (v : Int)
    (hf : keyFormatOK (normalizeKeyInput s) = true)
    (hl : alookup st.generated_keys (normalizeKeyInput s) = some kd)
    (hu : kd.user_id = some v) :
    process_key_activation u s st = (.alreadyRedeemed, st) := by
  simp [process_key_activation, activation_outcome, hf, hl, hu]

theorem activation_success_eq (u : Int) (s : List Char) (st : BotState)
    (kd : KeyData)
    (hf : keyFormatOK (normalizeKeyInput s) = true)
    (hl : alookup st.generated_keys (normalizeKeyInput s) = some kd)
    (hu : kd.user_id = none) :
    process_key_activation u s st
      = (.activated kd.days kd.expiry,
         ⟨aset st.generated_keys (normalizeKeyInput s)
            { kd with user_id := some u },
          aset st.premium_users u
            ⟨kd.expiry, normalizeKeyInput s, kd.admin_id, kd.days⟩⟩) := by
  simp [process_key_activation, activation_outcome, hf, hl, hu]

/-! ### Claim theorems: key redemption -/

/-- Claim C1: a key produced by `generate_key` and recorded as issued with
redeemed-by unset is redeemed successfully by the first
`process_key_activation` attempt, which binds the key to the redeeming
user; any later attempt with the same key, by any user, fails with the
already-redeemed error and leaves both stores unchanged. -/
theorem redeem_once_then_rejected
    (picks : List Nat) (u u2 : Int) (st : BotState) (kd : KeyData)
    (hlen : picks.length = 12)
    (hk : alookup st.generated_keys (generate_key picks) = some kd)
    (hun : kd.user_id = none) :
    (process_key_activation u (generate_key picks) st).1
        = .activated kd.days kd.expiry ∧
    alookup (process_key_activation u (generate_key picks) st).2.generated_keys
        (generate_key picks) = some { kd with user_id := some u } ∧
    alookup (process_key_activation u (generate_key picks) st).2.premium_users
        u = some ⟨kd.expiry, generate_key picks, kd.admin_id, kd.days⟩ ∧
    (process_key_activation u2 (generate_key picks)
        (process_key_activation u (generate_key picks) st).2).1
        = .alreadyRedeemed ∧
    (process_key_activation u2 (generate_key picks)
        (process_key_activation u (generate_key picks) st).2).2
        = (process_key_activation u (generate_key picks) st).2 := by
  have hfmt := generate_key_format hlen
  have hnorm := normalize_fixed_of_format hfmt
  have hf : keyFormatOK (normalizeKeyInput (generate_key picks)) = true := by
    rw [hnorm]; exact hfmt
  have hl : alookup st.generated_keys
      (normalizeKeyInput (generate_key picks)) = some kd := by
    rw [hnorm]; exact hk
  have hstep := activation_success_eq u (generate_key picks) st kd hf hl hun
  rw [hnorm] at hstep
  have hk2 : alookup (process_key_activation u (generate_key picks)
        st).2.generated_keys (normalizeKeyInput (generate_key picks))
      = some { kd with user_id := some u } := by
    rw [hnorm, hstep]; exact alookup_aset_self _ _ _
  have hstep2 := activation_redeemed_eq u2 (generate_key picks)
    (process_key_activation u (generate_key picks) st).2
    { kd with user_id := some u } u hf hk2 rfl
  refine ⟨by rw [hstep], ?_, ?_, by rw [hstep2], by rw [hstep2]⟩
  · rw [hnorm] at hk2; exact hk2
  · rw [hstep]; exact alookup_aset_self _ _ _

/-- Closed instance of `redeem_once_then_rejected`: a fresh key issued in
an otherwise empty store is redeemed by user 5 and then rejected. -/
theorem redeem_once_then_rejected_witness :
    (process_key_activation 5
        (generate_key [0, 1, 2, 3, 4, 5, 6, 7, 8, 9, 10, 11])
        ⟨[(generate_key [0, 1, 2, 3, 4, 5, 6, 7, 8, 9, 10, 11],
           ⟨none, 100, 9, 30⟩)], []⟩).1 = .activated 30 100 ∧
    (process_key_activation 6
        (generate_key [0, 1, 2, 3, 4, 5, 6, 7, 8, 9, 10, 11])
        (process_key_activation 5
          (generate_key [0, 1, 2, 3, 4, 5, 6, 7, 8, 9, 10, 11])
          ⟨[(generate_key [0, 1, 2, 3, 4, 5, 6, 7, 8, 9, 10, 11],
             ⟨none, 100, 9, 30⟩)], []⟩).2).1 = .alreadyRedeemed := by
  have h := redeem_once_then_rejected
    [0, 1, 2, 3, 4, 5, 6, 7, 8, 9, 10, 11] 5 6
    ⟨[(generate_key [0, 1, 2, 3, 4, 5, 6, 7, 8, 9, 10, 11],
       ⟨none, 100, 9, 30⟩)], []⟩
    ⟨none, 100, 9, 30⟩ (by decide) (by decide) rfl
  exact ⟨h.1, h.2.2.2.1⟩

/-- Claim C2: `process_key_activation` checks format, then existence, then
redeemed status, and returns the first applicable failure; a string whose
normalized form fails the format check yields the bad-format error with
the same result for every store (the store is never consulted), and the
three failure outcomes are pairwise distinct. -/
theorem activation_check_order (u : Int) (s : List Char) :
    (∀ st : BotState, keyFormatOK (normalizeKeyInput s) = false →
        process_key_activation u s st = (.badFormat, st)) ∧
    (∀ st : BotState, keyFormatOK (normalizeKeyInput s) = true →
        alookup st.generated_keys (normalizeKeyInput s) = none →
        process_key_activation u s st = (.unknownKey, st)) ∧
    (∀ (st : BotState) (kd : KeyData) (v : Int),
        keyFormatOK (normalizeKeyInput s) = true →
        alookup st.generated_keys (normalizeKeyInput s) = some kd →
        kd.user_id = some v →
        process_key_activation u s st = (.alreadyRedeemed, st)) ∧
    (ActivationResult.badFormat ≠ ActivationResult.unknownKey ∧
     ActivationResult.badFormat ≠ ActivationResult.alreadyRedeemed ∧
     ActivationResult.unknownKey ≠ ActivationResult.alreadyRedeemed) := by
  exact ⟨fun st hf => activation_badFormat_eq u s st hf,
    fun st hf hl => activation_unknown_eq u s st hf hl,
    fun st kd v hf hl hu => activation_redeemed_eq u s st kd v hf hl hu,
    by decide, by decide, by decide⟩

/-- Closed instance of `activation_check_order`: one input per failure. -/
theorem activation_check_order_witness :
    process_key_activation 5 ['x'] ⟨[], []⟩ = (.badFormat, ⟨[], []⟩) ∧
    process_key_activation 5
        (generate_key [0, 1, 2, 3, 4, 5, 6, 7, 8, 9, 10, 11]) ⟨[], []⟩
      = (.unknownKey, ⟨[], []⟩) ∧
    process_key_activation 5
        (generate_key [0, 1, 2, 3, 4, 5, 6, 7, 8, 9, 10, 11])
        ⟨[(generate_key [0, 1, 2, 3, 4, 5, 6, 7, 8, 9, 10, 11],
           ⟨some 7, 100, 9, 30⟩)], []⟩
      = (.alreadyRedeemed,
         ⟨[(generate_key [0, 1, 2, 3, 4, 5, 6, 7, 8, 9, 10, 11],
            ⟨some 7, 100, 9, 30⟩)], []⟩) :=
  ⟨(activation_check_order 5 ['x']).1 ⟨[], []⟩ (by decide),
   (activation_check_order 5
     (generate_key [0, 1, 2, 3, 4, 5, 6, 7, 8, 9, 10, 11])).2.1
     ⟨[], []⟩ (by decide) rfl,
   (activation_check_order 5
     (generate_key [0, 1, 2, 3, 4, 5, 6, 7, 8, 9, 10, 11])).2.2.1
     ⟨[(generate_key [0, 1, 2, 3, 4, 5, 6, 7, 8, 9, 10, 11],
        ⟨some 7, 100, 9, 30⟩)], []⟩
     ⟨some 7, 100, 9, 30⟩ 7 (by decide) rfl rfl⟩

/-- Claim C3: key activation is atomic — each of the three failure
outcomes leaves both `premium_users` and `generated_keys` untouched, and
the success outcome performs exactly the two writes (the user's grant and
the key's redeemed-by marking). -/
theorem activation_atomic (u : Int) (s : List Char) (st : BotState) :
    ((process_key_activation u s st).1 = .badFormat ∨
     (process_key_activation u s st).1 = .unknownKey ∨
     (process_key_activation u s st).1 = .alreadyRedeemed →
       (process_key_activation u s st).2 = st) ∧
    (∀ (d : Int) (e : Nat),
       (process_key_activation u s st).1 = .activated d e →
       ∃ kd : KeyData,
         alookup st.generated_keys (normalizeKeyInput s) = some kd ∧
         kd.user_id = none ∧ d = kd.days ∧ e = kd.expiry ∧
         (process_key_activation u s st).2.generated_keys
           = aset st.generated_keys (normalizeKeyInput s)
               { kd with user_id := some u } ∧
         (process_key_activation u s st).2.premium_users
           = aset st.premium_users u
               ⟨kd.expiry, normalizeKeyInput s, kd.admin_id, kd.days⟩ ∧
         alookup (process_key_activation u s st).2.generated_keys
             (normalizeKeyInput s) = some { kd with user_id := some u } ∧
         alookup (process_key_activation u s st).2.premium_users u
           = some ⟨kd.expiry, normalizeKeyInput s, kd.admin_id, kd.days⟩) := by
  by_cases hf : keyFormatOK (normalizeKeyInput s) = true
  · rcases hA : alookup st.generated_keys (normalizeKeyInput s) with - | kd
    · rw [activation_unknown_eq u s st hf hA]
      exact ⟨fun _ => rfl, fun d e h => by simp at h⟩
    · rcases hU : kd.user_id with - | v
      · rw [activation_success_eq u s st kd hf hA hU]
        refine ⟨fun h => ?_, fun d e h => ?_⟩
        · rcases h with h | h | h <;> simp at h
        · simp only [ActivationResult.activated.injEq] at h
          exact ⟨kd, by simp [hA], hU, h.1.symm, h.2.symm, rfl, rfl,
            alookup_aset_self _ _ _, alookup_aset_self _ _ _⟩
      · rw [activation_redeemed_eq u s st kd v hf hA hU]
        exact ⟨fun _ => rfl, fun d e h => by simp at h⟩
  · rw [activation_badFormat_eq u s st (Bool.of_not_eq_true hf)]
    exact ⟨fun _ => rfl, fun d e h => by simp at h⟩

/-- Closed instance of `activation_atomic`: a failed attempt leaves the
store untouched, a successful one performs both writes. -/
theorem activation_atomic_witness :
    (process_key_activation 5 ['x'] ⟨[], []⟩).2 = ⟨[], []⟩ ∧
    alookup (process_key_activation 5
        (generate_key [0, 1, 2, 3, 4, 5, 6, 7, 8, 9, 10, 11])
        ⟨[(generate_key [0, 1, 2, 3, 4, 5, 6, 7, 8, 9, 10, 11],
           ⟨none, 100, 9, 30⟩)], []⟩).2.premium_users 5
      = some ⟨100, normalizeKeyInput
          (generate_key [0, 1, 2, 3, 4, 5, 6, 7, 8, 9, 10, 11]), 9, 30⟩ := by
  refine ⟨(activation_atomic 5 ['x'] ⟨[], []⟩).1 (Or.inl (by decide)), ?_⟩
  obtain ⟨kd, hk, -, -, -, -, -, -, h⟩ :=
    (activation_atomic 5
      (generate_key [0, 1, 2, 3, 4, 5, 6, 7, 8, 9, 10, 11])
      ⟨[(generate_key [0, 1, 2, 3, 4, 5, 6, 7, 8, 9, 10, 11],
         ⟨none, 100, 9, 30⟩)], []⟩).2 30 100 (by decide)
  have hEval : alookup
      (BotState.generated_keys
        ⟨[(generate_key [0, 1, 2, 3, 4, 5, 6, 7, 8, 9, 10, 11],
           ⟨none, 100, 9, 30⟩)], []⟩)
      (normalizeKeyInput
        (generate_key [0, 1, 2, 3, 4, 5, 6, 7, 8, 9, 10, 11]))
      = some (⟨none, 100, 9, 30⟩ : KeyData) := by decide
  have hkd : kd = (⟨none, 100, 9, 30⟩ : KeyData) :=
    Option.some.inj (hk.symm.trans hEval)
  rw [hkd] at h
  exact h

/-- Claim C4: `is_premium` is true exactly when the user has a grant whose
expiry is strictly after the current instant; it is false at the exact
expiry instant, at every later instant, and for users without a grant.
Time is an explicit argument: the check is recomputed from the clock value
supplied at each call. -/
theorem is_premium_expiry_exclusive
    (premium : List (Int × Grant)) (uid : Int) (now : Nat) :
    (is_premium premium uid now = true ↔
      ∃ g : Grant, alookup premium uid = some g ∧ now < g.expiry) ∧
    (∀ g : Grant, alookup premium uid = some g →
      is_premium premium uid g.expiry = false) ∧
    (∀ (g : Grant) (t : Nat), alookup premium uid = some g → g.expiry ≤ t →
      is_premium premium uid t = false) ∧
    (alookup premium uid = none → is_premium premium uid now = false) := by
  cases hA : alookup premium uid with
  | none =>
      refine ⟨?_, ?_, ?_, fun _ => by simp [is_premium, hA]⟩
      · simp [is_premium, hA]
      · intro g hg; simp [hA] at hg
      · intro g t hg; simp [hA] at hg
  | some g =>
      refine ⟨?_, ?_, ?_, fun h => by simp [hA] at h⟩
      · simp [is_premium, hA]
      · intro g' hg'
        have hgg : g = g' := Option.some.inj hg'
        subst hgg
        simp [is_premium, hA]
      · intro g' t hg' ht
        have hgg : g = g' := Option.some.inj hg'
        subst hgg
        simp only [is_premium, hA, decide_eq_false_iff_not]
        omega

/-- Closed instance of `is_premium_expiry_exclusive`: with an expiry of
100, the check is true at 99 and false at 100, 150, and for a stranger. -/
theorem is_premium_expiry_exclusive_witness :
    is_premium [(1, ⟨100, ['K'], 9, 30⟩)] 1 99 = true ∧
    is_premium [(1, ⟨100, ['K'], 9, 30⟩)] 1 100 = false ∧
    is_premium [(1, ⟨100, ['K'], 9, 30⟩)] 1 150 = false ∧
    is_premium [(1, ⟨100, ['K'], 9, 30⟩)] 2 99 = false :=
  ⟨(is_premium_expiry_exclusive [(1, ⟨100, ['K'], 9, 30⟩)] 1 99).1.mpr
     ⟨⟨100, ['K'], 9, 30⟩, rfl, by decide⟩,
   (is_premium_expiry_exclusive [(1, ⟨100, ['K'], 9, 30⟩)] 1 99).2.1
     ⟨100, ['K'], 9, 30⟩ rfl,
   (is_premium_expiry_exclusive [(1, ⟨100, ['K'], 9, 30⟩)] 1 99).2.2.1
     ⟨100, ['K'], 9, 30⟩ 150 rfl (by decide),
   (is_premium_expiry_exclusive [(1, ⟨100, ['K'], 9, 30⟩)] 2 99).2.2.2 rfl⟩

/-- Claim C10: the submitted key text is normalized with
`.strip().upper()` before any validation, so an input differing from an
issued unredeemed key only by letter case and surrounding whitespace
redeems successfully, and two inputs with the same normalization always
produce the same outcome and the same final state. -/
theorem activation_input_normalized :
    (∀ (u : Int) (st : BotState) (w1 w2 core : List Char) (kd : KeyData),
      (∀ c ∈ w1, isPyWhitespace c = true) →
      (∀ c ∈ w2, isPyWhitespace c = true) →
      keyFormatOK (pyUpper core) = true →
      alookup st.generated_keys (pyUpper core) = some kd →
      kd.user_id = none →
      process_key_activation u (w1 ++ core ++ w2) st
        = process_key_activation u (pyUpper core) st ∧
      (process_key_activation u (w1 ++ core ++ w2) st).1
        = .activated kd.days kd.expiry) ∧
    (∀ (u : Int) (st : BotState) (s1 s2 : List Char),
      normalizeKeyInput s1 = normalizeKeyInput s2 →
      process_key_activation u s1 st = process_key_activation u s2 st) := by
  constructor
  · intro u st w1 w2 core kd hw1 hw2 hfmt hk hun
    have hne : core ≠ [] := by
      intro hrfl
      rw [hrfl] at hfmt
      exact absurd hfmt (by decide)
    have hcore : ∀ c ∈ core, isPyWhitespace c = false := by
      intro c hc
      by_cases hl : 97 ≤ c.toNat ∧ c.toNat ≤ 122
      · simp only [isPyWhitespace, Bool.or_eq_false_iff,
          decide_eq_false_iff_not]
        omega
      · have he : upperChar c = c := upperChar_eq_self_of_not_lower c hl
        have := (keyFormat_chars hfmt).1 (upperChar c)
          (List.mem_map_of_mem upperChar hc)
        rwa [he] at this
    have hn : normalizeKeyInput (w1 ++ core ++ w2) = pyUpper core := by
      unfold normalizeKeyInput
      rw [pyStrip_wrap hw1 hw2 hcore hne]
    have hn2 : normalizeKeyInput (pyUpper core) = pyUpper core :=
      normalize_fixed_of_format hfmt
    have heq : process_key_activation u (w1 ++ core ++ w2) st
        = process_key_activation u (pyUpper core) st := by
      unfold process_key_activation
      rw [hn, hn2]
    refine ⟨heq, ?_⟩
    rw [heq]
    simp [process_key_activation, hn2, activation_outcome, hfmt, hk, hun]
  · intro u st s1 s2 h
    unfold process_key_activation
    rw [h]

/-- Closed instance of `activation_input_normalized`: a lowercase key
wrapped in whitespace redeems the issued uppercase key. -/
theorem activation_input_normalized_witness :
    (process_key_activation 5
        ([' '] ++ "premium-abc123def456".toList ++ ['\n'])
        ⟨[(pyUpper "premium-abc123def456".toList, ⟨none, 100, 9, 30⟩)],
          []⟩).1 = .activated 30 100 :=
  (activation_input_normalized.1 5
    ⟨[(pyUpper "premium-abc123def456".toList, ⟨none, 100, 9, 30⟩)], []⟩
    [' '] ['\n'] "premium-abc123def456".toList ⟨none, 100, 9, 30⟩
    (by decide) (by decide) (by decide) (by decide) rfl).2

/-! ### Broadcast scheduler: `apply_message_interval`, `message_jobs` -/

/-- A job-queue entry created by `run_repeating`: owner, interval in
seconds, delay of the first firing, message, and whether the job is still
scheduled (`schedule_removal` clears the flag). -/
structure BJob where
  owner : Int
  interval : Nat
  first : Nat
  message : String
  active : Bool
deriving DecidableEq

/-- The job queue plus the bot's `message_jobs` dict mapping an owner to
the ids of the jobs it registered; `nextId` feeds fresh job ids. -/
structure SchedulerState where
  jobs : List (Nat × BJob)
  message_jobs : List (Int × List Nat)
  nextId : Nat
deriving DecidableEq

/-- `job.schedule_removal()`: mark the job with this id as no longer
scheduled. -/
def schedule_removal (jobs : List (Nat × BJob)) (jid : Nat) :
    List (Nat × BJob) :=
  jobs.map (fun p => if p.1 = jid then (p.1, { p.2 with active := false })
    else p)

/-- The cancellation half of `apply_message_interval`:
`if user_id in message_jobs: for job in message_jobs[user_id]:
job.schedule_removal(); del message_jobs[user_id]`. -/
def cancelUserJobs (s : SchedulerState) (uid : Int) : SchedulerState :=
  match alookup s.message_jobs uid with
  | some ids =>
      { s with jobs := ids.foldl schedule_removal s.jobs,
               message_jobs := aremove s.message_jobs uid }
  | none => s

/-- `apply_message_interval(query, context, user_id, interval)`: when a
pending message exists, cancel the owner's previous jobs, register one
recurring job (`run_repeating` with `interval * 60` seconds and a first
firing after 5 seconds) and record `message_jobs[user_id] = [job]`. -/
def apply_message_interval (uid : Int) (interval : Nat)
    (userMessage : Option String) (s : SchedulerState) :
    Option Nat × SchedulerState :=
  match userMessage with
  | none => (none, s)
  | some msg =>
      let s1 := cancelUserJobs s uid
      let jid := s1.nextId
      (some jid,
       { jobs := s1.jobs ++ [(jid, ⟨uid, interval * 60, 5, msg, true⟩)],
         message_jobs := aset s1.message_jobs uid [jid],
         nextId := s1.nextId + 1 })

/-- The ids of the owner's jobs still scheduled in the queue. -/
def activeJobs (s : SchedulerState) (uid : Int) : List Nat :=
  (s.jobs.filter (fun p => decide (p.2.owner = uid) && p.2.active)).map
    Prod.fst

theorem foldl_schedule_removal (ids : List Nat) (jobs : List (Nat × BJob)) :
    ids.foldl schedule_removal jobs
      = jobs.map (fun p => if p.1 ∈ ids then
          (p.1, { p.2 with active := false }) else p) := by
  induction ids generalizing jobs with
  | nil => simp
  | cons i rest ih =>
      rw [List.foldl_cons, ih]
      unfold schedule_removal
      rw [List.map_map]
      apply List.map_congr_left
      intro p _
      by_cases h1 : p.1 = i <;> by_cases h2 : p.1 ∈ rest <;>
        simp [h1, h2, List.mem_cons]

/-- Claim C5: as long as every scheduled job of the owner is tracked in
`message_jobs`, `apply_message_interval` first cancels all of the owner's
jobs (after the cancellation step the owner has no scheduled job) and only
then registers the new recurring job, so the final state has exactly one
scheduled job for the owner — at no point are two active simultaneously. -/
theorem single_active_broadcast_job (s : SchedulerState) (uid : Int)
    (interval : Nat) (msg : String)
    (htracked : ∀ p ∈ s.jobs, p.2.owner = uid → p.2.active = true →
        p.1 ∈ (alookup s.message_jobs uid).getD []) :
    activeJobs (cancelUserJobs s uid) uid = [] ∧
    activeJobs (apply_message_interval uid interval (some msg) s).2 uid
      = [s.nextId] ∧
    alookup
      (apply_message_interval uid interval (some msg) s).2.message_jobs uid
      = some [s.nextId] ∧
    (apply_message_interval uid interval (some msg) s).1
      = some s.nextId := by
  have hnext : (cancelUserJobs s uid).nextId = s.nextId := by
    unfold cancelUserJobs
    cases alookup s.message_jobs uid <;> rfl
  have hcancel : activeJobs (cancelUserJobs s uid) uid = [] := by
    unfold cancelUserJobs
    cases hA : alookup s.message_jobs uid with
    | none =>
        unfold activeJobs
        have hnil : (s.jobs.filter
            (fun p => decide (p.2.owner = uid) && p.2.active)) = [] := by
          rw [List.filter_eq_nil_iff]
          intro p hp hcond
          simp only [Bool.and_eq_true, decide_eq_true_eq] at hcond
          have := htracked p hp hcond.1 hcond.2
          rw [hA] at this
          simp at this
        rw [hnil]
        rfl
    | some ids =>
        unfold activeJobs
        simp only [foldl_schedule_removal]
        have hnil : ((s.jobs.map (fun p => if p.1 ∈ ids then
            (p.1, { p.2 with active := false }) else p)).filter
            (fun p => decide (p.2.owner = uid) && p.2.active)) = [] := by
          rw [List.filter_eq_nil_iff]
          intro a ha hcond
          obtain ⟨p, hp, rfl⟩ := List.mem_map.mp ha
          by_cases hm : p.1 ∈ ids
          · simp [hm] at hcond
          · simp only [hm, if_false, Bool.and_eq_true,
              decide_eq_true_eq] at hcond
            have := htracked p hp hcond.1 hcond.2
            rw [hA] at this
            simp only [Option.getD_some] at this
            exact hm this
        rw [hnil]
        rfl
  have happly : (apply_message_interval uid interval (some msg) s).2
      = { jobs := (cancelUserJobs s uid).jobs ++
            [((cancelUserJobs s uid).nextId,
              ⟨uid, interval * 60, 5, msg, true⟩)],
          message_jobs := aset (cancelUserJobs s uid).message_jobs uid
            [(cancelUserJobs s uid).nextId],
          nextId := (cancelUserJobs s uid).nextId + 1 } := rfl
  have hact : activeJobs
      (apply_message_interval uid interval (some msg) s).2 uid
      = activeJobs (cancelUserJobs s uid) uid
        ++ [(cancelUserJobs s uid).nextId] := by
    rw [happly]
    unfold activeJobs
    simp [List.filter_append, List.map_append]
  refine ⟨hcancel, ?_, ?_, by rw [hnext.symm]; rfl⟩
  · rw [hact, hcancel, hnext]
    rfl
  · rw [happly]
    simp only [hnext]
    exact alookup_aset_self _ _ _

/-- Closed instance of `single_active_broadcast_job`: an owner with one
tracked active job starts a new broadcast; the old job is cancelled before
the new one (id 1) is installed. -/
theorem single_active_broadcast_job_witness :
    activeJobs (cancelUserJobs ⟨[(0, ⟨7, 60, 5, "old", true⟩)],
        [(7, [0])], 1⟩ 7) 7 = [] ∧
    activeJobs (apply_message_interval 7 2 (some "hi")
        ⟨[(0, ⟨7, 60, 5, "old", true⟩)], [(7, [0])], 1⟩).2 7 = [1] :=
  ⟨(single_active_broadcast_job ⟨[(0, ⟨7, 60, 5, "old", true⟩)],
      [(7, [0])], 1⟩ 7 2 "hi" (by decide)).1,
   (single_active_broadcast_job ⟨[(0, ⟨7, 60, 5, "old", true⟩)],
      [(7, [0])], 1⟩ 7 2 "hi" (by decide)).2.1⟩

/-! ### Broadcast firing: `send_user_messages` -/

/-- A `user_groups` record: `{"title": ..., "username": ..., "link": ...}`
(the firing loop only reads `username`). -/
structure GroupInfo where
  username : String
  title : String
deriving DecidableEq

/-- The send loop of `send_user_messages`: each registered group is
attempted in order; a successful `client.send_message` bumps the success
counter, an exception is logged, bumps the failure counter and the loop
continues with the next group. The `send` oracle models the network. -/
def sendLoop (send : String → Bool) :
    List (String × GroupInfo) → Nat × Nat × List String
  | [] => (0, 0, [])
  | g :: rest =>
      let r := sendLoop send rest
      if send g.2.username then (r.1 + 1, r.2.1, g.2.username :: r.2.2)
      else (r.1, r.2.1 + 1, g.2.username :: r.2.2)

/-- The three messages a firing can report to the owner. -/
inductive FiringReport where
  | notConnected
  | sentReport (ok : Nat) (failed : Nat)
  | noneSent
deriving DecidableEq

/-- `send_user_messages(context)`: skip the firing when no usable session
exists, otherwise run the send loop over the owner's groups and report the
aggregate counts (`yuborildi` with `xato` appended when nonzero); the
scheduler state is never touched by a firing. -/
def send_user_messages (send : String → Bool) (session : Option String)
    (groups : List (String × GroupInfo)) (s : SchedulerState) :
    FiringReport × SchedulerState :=
  match session with
  | none => (.notConnected, s)
  | some sess =>
      if sess = "" then (.notConnected, s)
      else
        let r := sendLoop send groups
        (if 0 < r.1 then .sentReport r.1 r.2.1 else .noneSent, s)

theorem sendLoop_spec (send : String → Bool)
    (groups : List (String × GroupInfo)) :
    (sendLoop send groups).1
      = (groups.filter (fun g => send g.2.username)).length ∧
    (sendLoop send groups).2.1
      = (groups.filter (fun g => !send g.2.username)).length ∧
    (sendLoop send groups).2.2 = groups.map (fun g => g.2.username) ∧
    (sendLoop send groups).1 + (sendLoop send groups).2.1
      = groups.length := by
  induction groups with
  | nil => simp [sendLoop]
  | cons g rest ih =>
      obtain ⟨h1, h2, h3, h4⟩ := ih
      by_cases hs : send g.2.username <;>
        refine ⟨?_, ?_, ?_, ?_⟩ <;> simp [sendLoop, hs, h1, h2, h3] <;>
        omega

/-- Claim C6: during one firing every registered group is attempted, in
order, regardless of earlier failures; successes and failures are counted
independently and sum to the number of groups; with at least one success
the aggregate `sentReport` carries both counts; and the firing leaves the
scheduler state (hence the recurring job) untouched. -/
theorem broadcast_failures_isolated (send : String → Bool)
    (groups : List (String × GroupInfo)) (s : SchedulerState)
    (session : Option String) :
    (sendLoop send groups).1
      = (groups.filter (fun g => send g.2.username)).length ∧
    (sendLoop send groups).2.1
      = (groups.filter (fun g => !send g.2.username)).length ∧
    (sendLoop send groups).2.2 = groups.map (fun g => g.2.username) ∧
    (sendLoop send groups).1 + (sendLoop send groups).2.1
      = groups.length ∧
    (send_user_messages send session groups s).2 = s ∧
    (∀ sess : String, session = some sess → sess ≠ "" →
      0 < (sendLoop send groups).1 →
      (send_user_messages send session groups s).1
        = .sentReport (sendLoop send groups).1
            (sendLoop send groups).2.1) := by
  obtain ⟨h1, h2, h3, h4⟩ := sendLoop_spec send groups
  refine ⟨h1, h2, h3, h4, ?_, ?_⟩
  · cases session with
    | none => rfl
    | some sess =>
        by_cases h : sess = "" <;> simp [send_user_messages, h]
  · intro sess hs hne h0
    subst hs
    simp [send_user_messages, hne, h0]

/-- Closed instance of `broadcast_failures_isolated`: group A fails, group
B succeeds; the cycle reports 1 success and 1 failure and the scheduler
state is unchanged. -/
theorem broadcast_failures_isolated_witness :
    (send_user_messages (fun u => decide (u = "B")) (some "sess")
        [("1", ⟨"A", "tA"⟩), ("2", ⟨"B", "tB"⟩)] ⟨[], [], 0⟩).1
      = .sentReport 1 1 ∧
    (send_user_messages (fun u => decide (u = "B")) (some "sess")
        [("1", ⟨"A", "tA"⟩), ("2", ⟨"B", "tB"⟩)] ⟨[], [], 0⟩).2
      = ⟨[], [], 0⟩ :=
  ⟨(broadcast_failures_isolated (fun u => decide (u = "B"))
      [("1", ⟨"A", "tA"⟩), ("2", ⟨"B", "tB"⟩)] ⟨[], [], 0⟩
      (some "sess")).2.2.2.2.2 "sess" rfl (by decide) (by decide),
   (broadcast_failures_isolated (fun u => decide (u = "B"))
      [("1", ⟨"A", "tA"⟩), ("2", ⟨"B", "tB"⟩)] ⟨[], [], 0⟩
      (some "sess")).2.2.2.2.1⟩

/-! ### Resend-code cooldown (`resend_verification_code`, test.py) -/

/-- The per-user scratch data consulted by `resend_verification_code`:
phone number, instant (in seconds) of the last code request, the code
verification handle, and the attempt counter. -/
structure LinkData where
  phone : Option String
  last_code_request : Option Nat
  phone_code_hash : Option String
  code_attempts : Nat
deriving DecidableEq

/-- Outcomes of a resend-code action. -/
inductive ResendResult where
  | noPhone
  | cooldown
  | resent (hash : String)
  | failed
deriving DecidableEq

/-- `resend_verification_code(update, context)`: reject without contacting
the platform when no phone is stored or when fewer than 120 seconds have
passed since `last_code_request`; otherwise contact the platform
(`platform = some hash` models a successful `send_verification_code`,
`none` an exception) and on success store the new hash, the new request
instant and a reset attempt counter. The third component reports whether
the platform was contacted. -/
def resend_verification_code (now : Nat) (platform : Option String)
    (d : Option LinkData) : ResendResult × Option LinkData × Bool :=
  match d with
  | none => (.noPhone, d, false)
  | some u =>
      match u.phone with
      | none => (.noPhone, d, false)
      | some _ =>
          let proceed :=
            match platform with
            | none => (ResendResult.failed, d, true)
            | some h =>
                (ResendResult.resent h,
                 some { u with phone_code_hash := some h,
                               last_code_request := some now,
                               code_attempts := 0 }, true)
          match u.last_code_request with
          | some t => if now - t < 120 then (.cooldown, d, false)
                      else proceed
          | none => proceed

/-- Claim C8: a resend issued strictly within 120 seconds of the previous
code request is rejected client-side with no platform contact and no state
change; once 120 seconds have elapsed the resend contacts the platform and,
on success, records the new request instant — which starts the next
cooldown window, as the follow-up conjunct shows. -/
theorem resend_code_cooldown (now now2 t : Nat) (u : LinkData)
    (ph : String) (platform platform2 : Option String) (h : String)
    (hph : u.phone = some ph) :
    (u.last_code_request = some t → now - t < 120 →
      resend_verification_code now platform (some u)
        = (.cooldown, some u, false)) ∧
    (u.last_code_request = some t → 120 ≤ now - t →
      (resend_verification_code now platform (some u)).2.2 = true) ∧
    (u.last_code_request = some t → 120 ≤ now - t → platform = some h →
      resend_verification_code now platform (some u)
        = (.resent h,
           some { u with phone_code_hash := some h,
                         last_code_request := some now,
                         code_attempts := 0 }, true)) ∧
    (u.last_code_request = some t → 120 ≤ now - t → platform = some h →
      now2 - now < 120 →
      resend_verification_code now2 platform2
          ((resend_verification_code now platform (some u)).2.1)
        = (.cooldown,
           (resend_verification_code now platform (some u)).2.1,
           false)) := by
  refine ⟨?_, ?_, ?_, ?_⟩
  · intro hl hc
    simp [resend_verification_code, hph, hl, hc]
  · intro hl hc
    have hge : ¬ (now - t < 120) := by omega
    cases platform with
    | none => simp [resend_verification_code, hph, hl, hge]
    | some h2 => simp [resend_verification_code, hph, hl, hge]
  · intro hl hc hp
    subst hp
    have hge : ¬ (now - t < 120) := by omega
    simp [resend_verification_code, hph, hl, hge]
  · intro hl hc hp hc2
    subst hp
    have hge : ¬ (now - t < 120) := by omega
    have hstep : resend_verification_code now (some h) (some u)
        = (.resent h,
           some { u with phone_code_hash := some h,
                         last_code_request := some now,
                         code_attempts := 0 }, true) := by
      simp [resend_verification_code, hph, hl, hge]
    rw [hstep]
    simp [resend_verification_code, hph, hc2]

/-- Closed instance of `resend_code_cooldown`: last request at 1000 —
resend at 1080 is rejected on cooldown; resend at 1120 goes through and a
follow-up at 1200 is rejected again. -/
theorem resend_code_cooldown_witness :
    resend_verification_code 1080 (some "h2")
        (some ⟨some "+998901234567", some 1000, some "h1", 1⟩)
      = (.cooldown, some ⟨some "+998901234567", some 1000, some "h1", 1⟩,
         false) ∧
    resend_verification_code 1120 (some "h2")
        (some ⟨some "+998901234567", some 1000, some "h1", 1⟩)
      = (.resent "h2",
         some ⟨some "+998901234567", some 1120, some "h2", 0⟩, true) ∧
    resend_verification_code 1200 (some "h3")
        ((resend_verification_code 1120 (some "h2")
          (some ⟨some "+998901234567", some 1000, some "h1", 1⟩)).2.1)
      = (.cooldown,
         (resend_verification_code 1120 (some "h2")
           (some ⟨some "+998901234567", some 1000, some "h1", 1⟩)).2.1,
         false) :=
  ⟨(resend_code_cooldown 1080 1200 1000
      ⟨some "+998901234567", some 1000, some "h1", 1⟩ "+998901234567"
      (some "h2") (some "h3") "h2" rfl).1 rfl (by decide),
   (resend_code_cooldown 1120 1200 1000
      ⟨some "+998901234567", some 1000, some "h1", 1⟩ "+998901234567"
      (some "h2") (some "h3") "h2" rfl).2.2.1 rfl (by decide) rfl,
   (resend_code_cooldown 1120 1200 1000
      ⟨some "+998901234567", some 1000, some "h1", 1⟩ "+998901234567"
      (some "h2") (some "h3") "h2" rfl).2.2.2 rfl (by decide) rfl
      (by decide)⟩

/-! ### Auto-folder creation (`create_auto_folder`) -/

/-- The fields of a `telegram_accounts` record read by
`create_auto_folder`: only the session string matters, with Python
truthiness (`None` or the empty string are unusable). -/
structure TAccount where
  session : Option String
  phone : Option String
deriving DecidableEq

/-- An `auto_folders` record: `{"folder_name": ..., "groups": [...]}`. -/
structure AutoFolder where
  folder_name : String
  groups : List String
deriving DecidableEq

/-- `not (user_id in telegram_accounts and
telegram_accounts[user_id].get("session"))`, negated: the session is
usable iff the record exists and the session string is present and
non-empty. -/
def sessionUsable (acc : Option TAccount) : Bool :=
  match acc with
  | none => false
  | some a =>
      match a.session with
      | none => false
      | some sess => decide (sess ≠ "")

/-- Outcomes of `create_auto_folder`. -/
inductive FolderResult where
  | needConnect
  | needGroups
  | alreadyExists
  | created
deriving DecidableEq

/-- The three stores read or written by `create_auto_folder`. -/
structure FolderState where
  telegram_accounts : List (Int × TAccount)
  user_groups : List (Int × List (String × GroupInfo))
  auto_folders : List (Int × AutoFolder)
deriving DecidableEq

/-- The record stored on success:
`{"folder_name": "Avto-Papka", "groups": list(user_groups[uid].keys())}`. -/
def newFolder (st : FolderState) (uid : Int) : AutoFolder :=
  ⟨"Avto-Papka", ((alookup st.user_groups uid).getD []).map Prod.fst⟩

/-- `create_auto_folder(query, user_id)`: require a connected account with
a usable session, then at least one registered group, then no existing
folder (each failure returns without writing); on success store the
`newFolder` record. -/
def create_auto_folder (uid : Int) (st : FolderState) :
    FolderResult × FolderState :=
  if !sessionUsable (alookup st.telegram_accounts uid) then
    (.needConnect, st)
  else if (alookup st.user_groups uid).getD [] = [] then
    (.needGroups, st)
  else if (alookup st.auto_folders uid).isSome then
    (.alreadyExists, st)
  else
    (.created,
     { st with auto_folders := aset st.auto_folders uid (newFolder st uid) })

/-- Claim C9: `create_auto_folder` succeeds exactly when the owner has a
usable linked session and at least one registered group and no existing
folder; an existing folder makes the call a rejected no-op (reported as
the already-exists warning when the other checks pass); every failure
leaves the state unchanged; and the created folder's group list is
exactly the owner's currently registered group ids. -/
theorem auto_folder_requirements (uid : Int) (st : FolderState) :
    ((create_auto_folder uid st).1 = .created ↔
      sessionUsable (alookup st.telegram_accounts uid) = true ∧
      (alookup st.user_groups uid).getD [] ≠ [] ∧
      alookup st.auto_folders uid = none) ∧
    ((create_auto_folder uid st).1 ≠ .created →
      (create_auto_folder uid st).2 = st) ∧
    ((alookup st.auto_folders uid).isSome →
      (create_auto_folder uid st).1 ≠ .created ∧
      (create_auto_folder uid st).2 = st) ∧
    (sessionUsable (alookup st.telegram_accounts uid) = true →
      (alookup st.user_groups uid).getD [] ≠ [] →
      (alookup st.auto_folders uid).isSome →
      (create_auto_folder uid st).1 = .alreadyExists) ∧
    ((create_auto_folder uid st).1 = .created →
      alookup (create_auto_folder uid st).2.auto_folders uid
        = some ⟨"Avto-Papka",
            ((alookup st.user_groups uid).getD []).map Prod.fst⟩) := by
  by_cases hs : sessionUsable (alookup st.telegram_accounts uid) = true
  · by_cases hg : (alookup st.user_groups uid).getD [] = []
    · have hP : create_auto_folder uid st = (.needGroups, st) := by
        simp [create_auto_folder, hs, hg]
      rw [hP]
      exact ⟨by simp [hg], fun _ => rfl, fun _ => ⟨by simp, rfl⟩,
        fun _ h _ => absurd hg h, by simp⟩
    · cases hf : alookup st.auto_folders uid with
      | some f =>
          have hP : create_auto_folder uid st = (.alreadyExists, st) := by
            simp [create_auto_folder, hs, hg, hf]
          rw [hP]
          exact ⟨by simp [hf], fun _ => rfl, fun _ => ⟨by simp, rfl⟩,
            fun _ _ _ => rfl, by simp⟩
      | none =>
          have hP : create_auto_folder uid st
              = (.created, { st with
                  auto_folders := aset st.auto_folders uid (newFolder st uid) }) := by
            simp [create_auto_folder, hs, hg, hf]
          rw [hP]
          refine ⟨by simp [hs, hg, hf], fun h => absurd rfl h,
            fun h => by simp at h,
            fun _ _ h => by simp at h,
            fun _ => alookup_aset_self _ _ _⟩
  · have hs' : sessionUsable (alookup st.telegram_accounts uid) = false :=
      Bool.of_not_eq_true hs
    have hP : create_auto_folder uid st = (.needConnect, st) := by
      simp [create_auto_folder, hs']
    rw [hP]
    exact ⟨by simp [hs'], fun _ => rfl, fun _ => ⟨by simp, rfl⟩,
      fun h => absurd h hs, by simp⟩

/-- Closed instance of `auto_folder_requirements`: rejection when a folder
exists, creation capturing the registered group ids otherwise. -/
theorem auto_folder_requirements_witness :
    (create_auto_folder 7
        ⟨[(7, ⟨some "sess", some "+998"⟩)], [(7, [("g1", ⟨"A", "tA"⟩)])],
         [(7, ⟨"Avto-Papka", ["g1"]⟩)]⟩).2
      = ⟨[(7, ⟨some "sess", some "+998"⟩)], [(7, [("g1", ⟨"A", "tA"⟩)])],
         [(7, ⟨"Avto-Papka", ["g1"]⟩)]⟩ ∧
    (create_auto_folder 7
        ⟨[(7, ⟨some "sess", some "+998"⟩)],
         [(7, [("g1", ⟨"A", "tA"⟩), ("g2", ⟨"B", "tB"⟩)])], []⟩).1
      = .created ∧
    alookup (create_auto_folder 7
        ⟨[(7, ⟨some "sess", some "+998"⟩)],
         [(7, [("g1", ⟨"A", "tA"⟩), ("g2", ⟨"B", "tB"⟩)])], []⟩).2.auto_folders
        7
      = some ⟨"Avto-Papka", ["g1", "g2"]⟩ :=
  ⟨((auto_folder_requirements 7
      ⟨[(7, ⟨some "sess", some "+998"⟩)], [(7, [("g1", ⟨"A", "tA"⟩)])],
       [(7, ⟨"Avto-Papka", ["g1"]⟩)]⟩).2.2.1 (by decide)).2,
   (auto_folder_requirements 7
      ⟨[(7, ⟨some "sess", some "+998"⟩)],
       [(7, [("g1", ⟨"A", "tA"⟩), ("g2", ⟨"B", "tB"⟩)])], []⟩).1.mpr
      ⟨by decide, by decide, rfl⟩,
   (auto_folder_requirements 7
      ⟨[(7, ⟨some "sess", some "+998"⟩)],
       [(7, [("g1", ⟨"A", "tA"⟩), ("g2", ⟨"B", "tB"⟩)])], []⟩).2.2.2.2
      ((auto_folder_requirements 7
        ⟨[(7, ⟨some "sess", some "+998"⟩)],
         [(7, [("g1", ⟨"A", "tA"⟩), ("g2", ⟨"B", "tB"⟩)])], []⟩).1.mpr
        ⟨by decide, by decide, rfl⟩)⟩

/-! ### Persistence: `save_data` / `load_data` -/

/-- A `datetime.datetime` value (naive, as produced by `datetime.now()`
and `fromisoformat`). -/
structure PyDateTime where
  year : Nat
  month : Nat
  day : Nat
  hour : Nat
  minute : Nat
  second : Nat
  microsecond : Nat
deriving DecidableEq

/-- Decimal rendering of `n` left-padded with zeros to width `w`. -/
def padNum (w n : Nat) : String :=
  let s := toString n
  String.mk (List.replicate (w - s.length) '0') ++ s

/-- `datetime.isoformat()`: `YYYY-MM-DDTHH:MM:SS[.ffffff]`, the fraction
present only when the microsecond field is nonzero. -/
def isoformat (d : PyDateTime) : String :=
  padNum 4 d.year ++ "-" ++ padNum 2 d.month ++ "-" ++ padNum 2 d.day ++
  "T" ++ padNum 2 d.hour ++ ":" ++ padNum 2 d.minute ++ ":" ++
  padNum 2 d.second ++
  (if d.microsecond = 0 then "" else "." ++ padNum 6 d.microsecond)

/-- Digits of an ASCII decimal string as a number. -/
def digitsToNat (l : List Char) : Nat :=
  l.foldl (fun a c => a * 10 + (c.toNat - 48)) 0

/-- `datetime.fromisoformat`: positional parse of the fixed-width ISO
form, padding a short fraction with zeros to microseconds. -/
def fromisoformat (s : String) : PyDateTime :=
  let cs := s.toList
  { year := digitsToNat (cs.take 4),
    month := digitsToNat ((cs.drop 5).take 2),
    day := digitsToNat ((cs.drop 8).take 2),
    hour := digitsToNat ((cs.drop 11).take 2),
    minute := digitsToNat ((cs.drop 14).take 2),
    second := digitsToNat ((cs.drop 17).take 2),
    microsecond :=
      if cs.length ≤ 19 then 0
      else digitsToNat (cs.drop 20 ++
        List.replicate (6 - (cs.drop 20).length) '0') }

/-- An in-memory Python value as held in the global store dictionaries:
int, str, None, or a datetime object. -/
inductive PVal where
  | pint (n : Int)
  | pstr (s : String)
  | pnone
  | pdt (d : PyDateTime)
deriving DecidableEq

/-- An in-memory dict key: the int user ids of `premium_users` /
`pending_requests` / `telegram_accounts`, or the string key strings of
`generated_keys`. -/
inductive PKey where
  | kint (n : Int)
  | kstr (s : String)
deriving DecidableEq

/-- A JSON scalar as written to / read from the data files. -/
inductive JVal where
  | jint (n : Int)
  | jstr (s : String)
  | jnull
deriving DecidableEq

/-- One of the seven global store dictionaries: a dict from a key to a
record (itself a dict from field name to value). -/
def Store : Type := List (PKey × List (String × PVal))

instance : DecidableEq Store := by
  unfold Store
  infer_instance

/-- `json.dump` turns an int dict key into its decimal string; a string
key is written as itself. -/
def dumpKey : PKey → String
  | .kint n => toString n
  | .kstr s => s

/-- The `json_serializer` default of `save_data` plus JSON encoding:
datetimes become their `isoformat()` string, everything else is a JSON
scalar already. -/
def dumpVal : PVal → JVal
  | .pint n => .jint n
  | .pstr s => .jstr s
  | .pnone => .jnull
  | .pdt d => .jstr (isoformat d)

/-- `save_data(file_path, data)`: the on-disk JSON document produced from
a store. -/
def save_data (st : Store) : List (String × List (String × JVal)) :=
  st.map (fun e => (dumpKey e.1, e.2.map (fun f => (f.1, dumpVal f.2))))

/-- `json.load` reads back plain scalars (keys are always strings). -/
def loadVal : JVal → PVal
  | .jint n => .pint n
  | .jstr s => .pstr s
  | .jnull => .pnone

/-- The datetime-restoring pass of `load_data`, applied only for
`PREMIUM_USERS_FILE` and `GENERATED_KEYS_FILE`: an `"expiry"` field that
is a string is parsed back with `fromisoformat`. -/
def convertExpiry (fields : List (String × PVal)) : List (String × PVal) :=
  fields.map (fun f =>
    if f.1 = "expiry" then
      match f.2 with
      | .pstr s => (f.1, PVal.pdt (fromisoformat s))
      | v => (f.1, v)
    else f)

/-- `load_data(file_path, default_value)` on an existing file:
`json.load` followed, for the two expiry-bearing files, by the expiry
conversion. Keys stay the strings JSON gives back. -/
def load_data (isExpiryFile : Bool)
    (disk : List (String × List (String × JVal))) : Store :=
  disk.map (fun e =>
    (PKey.kstr e.1,
     let fs := e.2.map (fun f => (f.1, loadVal f.2))
     if isExpiryFile then convertExpiry fs else fs))

/-- A one-entry `premium_users` store: user id 1 holds a grant expiring
2025-06-01 12:00:00. -/
def samplePremium : Store :=
  [(PKey.kint 1,
    [("expiry", PVal.pdt ⟨2025, 6, 1, 12, 0, 0, 0⟩),
     ("key", PVal.pstr "PREMIUM-ABC123DEF456"),
     ("admin_id", PVal.pint 9),
     ("days", PVal.pint 30)])]

/-- A one-entry `pending_requests` store for user id 4. -/
def samplePending : Store :=
  [(PKey.kint 4,
    [("username", PVal.pstr "bob"),
     ("date", PVal.pdt ⟨2025, 6, 1, 12, 0, 0, 0⟩),
     ("user_id", PVal.pint 4)])]

/-- Claim C7 fails on the code: saving `premium_users` and reloading it
turns the int user-id key `1` into the string `"1"`, so the reloaded
store is not equal to the saved one and the lookup by the owning user id
finds nothing (the entry values themselves, expiry included, survive under
the stringified key); for files other than the two expiry-bearing ones a
datetime field (here a pending request's date) reloads as an ISO string,
not a datetime value. -/
theorem store_roundtrip_loses_int_keys :
    alookup samplePremium (PKey.kint 1)
      = some [("expiry", PVal.pdt ⟨2025, 6, 1, 12, 0, 0, 0⟩),
              ("key", PVal.pstr "PREMIUM-ABC123DEF456"),
              ("admin_id", PVal.pint 9),
              ("days", PVal.pint 30)] ∧
    alookup (load_data true (save_data samplePremium)) (PKey.kint 1)
      = none ∧
    load_data true (save_data samplePremium) ≠ samplePremium ∧
    alookup (load_data true (save_data samplePremium)) (PKey.kstr "1")
      = some [("expiry", PVal.pdt ⟨2025, 6, 1, 12, 0, 0, 0⟩),
              ("key", PVal.pstr "PREMIUM-ABC123DEF456"),
              ("admin_id", PVal.pint 9),
              ("days", PVal.pint 30)] ∧
    alookup (load_data false (save_data samplePending)) (PKey.kstr "4")
      = some [("username", PVal.pstr "bob"),
              ("date", PVal.pstr "2025-06-01T12:00:00"),
              ("user_id", PVal.pint 4)] := by
  refine ⟨rfl, rfl, ?_, ?_, ?_⟩ <;> decide

end Bot
